import Mathlib

/-!
Verification development for the realtime WebSocket channel manager of the
loan-marketplace repository.  The authoritative source is the class
`WebSocketService` in `src/frontend/src/services/profile.ts` (the fully
configured variant with keepalive, reconnection backoff and an outbound
message queue); the hook `src/frontend/src/hooks/useWebSocket.ts` is a
sibling implementation of the same design and is occasionally cited in
comments for comparison.

The embedding is a shallow one: the mutable fields of the class become a
`State` record, every method becomes a pure `State → State` function
translated line by line from the TypeScript, and the browser event loop
(socket callbacks, timers, online/visibility events) becomes an explicit
`Event` type with a `step` interpreter.  Wall-clock reads (`Date.now()`)
are passed in as an explicit `now : Nat` argument carried by each event.
Writes to the underlying transport (`this.ws.send(...)`), error-handler
notifications (`notifyError`), status-handler notifications
(`notifyStatusChange`) and message-handler dispatches are recorded in
append-only observation traces (`sent`, `errors`, `statuses`,
`dispatched`).
-/

/-- Frame/message categories of the wire protocol.  The TypeScript code
dispatches on the string field `data.type`; the reserved type strings
(authenticate, ping, pong, authentication_successful,
authentication_failed) are represented by the like-named constructors
and every other (domain) type string by `domain tag` for an opaque
numeric tag. -/
inductive MsgType where
  | authenticate : MsgType
  | ping : MsgType
  | pong : MsgType
  | authentication_successful : MsgType
  | authentication_failed : MsgType
  | domain : Nat → MsgType
deriving DecidableEq, Repr

/-- The kinds of error objects passed to `notifyError` in the source. -/
inductive ErrKind where
  | maxReconnect : ErrKind
  | authFailed : ErrKind
  | socketError : ErrKind
deriving DecidableEq, Repr

/-- Browser `WebSocket.readyState` values. -/
inductive ReadyState where
  | CONNECTING : ReadyState
  | OPEN : ReadyState
  | CLOSING : ReadyState
  | CLOSED : ReadyState
deriving DecidableEq, Repr

/-- The `WebSocketConfig` interface (numeric fields; `debug` only guards
logging and is omitted). -/
structure WSConfig where
  pingInterval : Nat := 30000
  pongTimeout : Nat := 45000
  reconnectAttempts : Nat := 5
  reconnectBaseDelay : Nat := 1000
deriving DecidableEq, Repr

/-- `DEFAULT_CONFIG` from profile.ts (also the configuration of the
`notificationWebSocket` singleton). -/
def DEFAULT_CONFIG : WSConfig := {}

namespace WebSocketService

/-- The mutable instance fields of `WebSocketService`, plus the
environment flag `online` (`navigator.onLine`) and the four observation
traces.  Timer handles (`reconnectTimeout`, `keepaliveInterval`,
`connectionCheckInterval`) are modelled by Booleans saying whether a
timer is currently pending/armed; `reconnectDelaySet` additionally
records the delay the pending reconnect timer was armed with. -/
structure State where
  ws : Option ReadyState := none
  isConnecting : Bool := false
  shouldReconnect : Bool := true
  reconnectAttempts : Nat := 0
  lastPingTime : Nat := 0
  lastPongTime : Nat := 0
  connectionStartTime : Nat := 0
  messageQueue : List MsgType := []
  isAuthenticated : Bool := false
  reconnectTimeoutSet : Bool := false
  reconnectDelaySet : Option Nat := none
  keepaliveSet : Bool := false
  checkIntervalSet : Bool := false
  online : Bool := true
  sent : List MsgType := []
  errors : List ErrKind := []
  statuses : List Bool := []
  dispatched : List MsgType := []
deriving DecidableEq, Repr

/-- State of a freshly constructed `WebSocketService`. -/
def initState : State := {}

/-- `send(data)` (profile.ts lines 369-385).  Unauthenticated and the
type is neither `authenticate` nor `ping`: enqueue.  Otherwise, if the
socket is open: write to the transport.  Otherwise, unless the type is
`ping`: enqueue (a `ping` is silently dropped). -/
def send (data : MsgType) (s : State) : State :=
  if s.isAuthenticated = false ∧ data ≠ .authenticate ∧ data ≠ .ping then
    { s with messageQueue := s.messageQueue ++ [data] }
  else if s.ws = some .OPEN then
    { s with sent := s.sent ++ [data] }
  else if data ≠ .ping then
    { s with messageQueue := s.messageQueue ++ [data] }
  else
    s

/-- `handlePing()` (lines 177-181): reply to a server ping by passing a
pong frame to `send` when the socket is open. -/
def handlePing (s : State) : State :=
  if s.ws = some .OPEN then send .pong s else s

/-- `handlePong()` (lines 183-185). -/
def handlePong (now : Nat) (s : State) : State :=
  { s with lastPongTime := now }

/-- `cleanupConnection(reason)` (lines 187-213): close and drop the
socket, clear all three timers, reset the authenticated flag.  (The
closed socket is detached, so no further events of this model act on
it.) -/
def cleanupConnection (s : State) : State :=
  { s with ws := none, keepaliveSet := false, checkIntervalSet := false,
           reconnectTimeoutSet := false, reconnectDelaySet := none,
           isAuthenticated := false }

/-- The delay computed at profile.ts lines 225-228:
`Math.min(reconnectBaseDelay * Math.pow(2, reconnectAttempts), 30000)`. -/
def reconnectDelay (cfg : WSConfig) (attempt : Nat) : Nat :=
  min (cfg.reconnectBaseDelay * 2 ^ attempt) 30000

/-- `reconnect()` (lines 215-240).  Skips entirely while offline.
Otherwise cleans up the current connection and either arms the
reconnect timer (attempt counter below the maximum) or reports the
terminal error and notifies status `false`. -/
def reconnect (cfg : WSConfig) (s : State) : State :=
  if s.online = false then s
  else if s.reconnectAttempts < cfg.reconnectAttempts then
    { cleanupConnection s with
        reconnectTimeoutSet := true,
        reconnectDelaySet := some (reconnectDelay cfg s.reconnectAttempts) }
  else
    { cleanupConnection s with
        shouldReconnect := false,
        errors := s.errors ++ [.maxReconnect],
        statuses := s.statuses ++ [false] }

/-- `connect()` (lines 242-361), up to the construction of the socket.
`token` is the value the credential provider (`authService.getToken()`)
returns at this call.  Socket construction is modelled as succeeding
(the `catch` branch is unreachable in the model).  The socket callbacks
are separate events below. -/
def connect (token : Option Nat) (now : Nat) (s : State) : State :=
  if s.isConnecting = true then s
  else if s.ws = some .OPEN then s
  else if s.online = false then s
  else
    match token with
    | none => { s with isConnecting := false }
    | some _ => { s with isConnecting := true, ws := some .CONNECTING,
                         connectionStartTime := now }

/-- `startKeepalive()` (lines 127-149): clear and re-arm the keepalive
interval and the connection-check interval, sending one ping
immediately. -/
def startKeepalive (now : Nat) (s : State) : State :=
  { send .ping { s with keepaliveSet := false } with
      lastPingTime := now, keepaliveSet := true, checkIntervalSet := true }

/-- The `while (this.messageQueue.length > 0)` loop of the `onopen`
handler (lines 287-290), with explicit fuel: each iteration shifts the
head of the queue and passes it to `send`.  The source loop is
unbounded; `drainLoop fuel` performs the first `fuel` iterations. -/
def drainLoop : Nat → State → State
  | 0, s => s
  | fuel + 1, s =>
    match s.messageQueue with
    | [] => s
    | m :: rest => drainLoop fuel (send m { s with messageQueue := rest })

/-- The `onopen` callback (lines 272-294), fired when the current
socket finishes its handshake: readyState becomes OPEN, then the
handler resets `isConnecting` and the attempt counter, stamps
ping/pong times, notifies status `true`, sends the `authenticate`
frame, runs the queue-drain loop (`fuel` iterations of it) and starts
the keepalive. -/
def onopenEvt (now fuel : Nat) (s : State) : State :=
  if s.ws = some .CONNECTING then
    startKeepalive now (drainLoop fuel (send .authenticate
      { s with ws := some .OPEN, isConnecting := false, reconnectAttempts := 0,
               lastPingTime := now, lastPongTime := now,
               statuses := s.statuses ++ [true] }))
  else s

/-- `disconnect()` (lines 363-367). -/
def disconnectOp (s : State) : State :=
  { cleanupConnection { s with shouldReconnect := false } with
      statuses := s.statuses ++ [false] }

/-- The `onmessage` callback (lines 296-334) for a frame that parses to
`data` with `data.type = m`, delivered on the current open socket:
`authentication_successful` sets the flag and returns;
`authentication_failed` clears it, reports the error and disconnects;
`ping`/`pong` are handled in place; any other frame is dispatched to
the registered message handlers. -/
def onmessageEvt (m : MsgType) (now : Nat) (s : State) : State :=
  if s.ws = some .OPEN then
    match m with
    | .authentication_successful => { s with isAuthenticated := true }
    | .authentication_failed =>
      disconnectOp { s with isAuthenticated := false,
                            errors := s.errors ++ [.authFailed] }
    | .ping => handlePing s
    | .pong => handlePong now s
    | other => { s with dispatched := s.dispatched ++ [other] }
  else s

/-- The `onclose` callback (lines 336-347), fired on the current socket
(readyState becomes CLOSED): reset `isConnecting`, notify status
`false`, and unless the close code is a normal closure (1000/1001) or
`shouldReconnect` is off, run `reconnect()`. -/
def oncloseEvt (cfg : WSConfig) (code : Nat) (s : State) : State :=
  if s.ws = some .CONNECTING ∨ s.ws = some .OPEN then
    if code = 1000 ∨ code = 1001 ∨ s.shouldReconnect = false then
      { s with ws := some .CLOSED, isConnecting := false,
               statuses := s.statuses ++ [false] }
    else
      reconnect cfg { s with ws := some .CLOSED, isConnecting := false,
                             statuses := s.statuses ++ [false] }
  else s

/-- The `onerror` callback (lines 349-354) on the current socket. -/
def onerrorEvt (s : State) : State :=
  if s.ws ≠ none then
    { s with errors := s.errors ++ [.socketError], isConnecting := false,
             statuses := s.statuses ++ [false] }
  else s

/-- `checkConnection()` (lines 151-175): skip while offline; if the
socket is not open, reconnect and return; otherwise reconnect when the
last pong is stale (`lastPongTime` truthy and older than
`pongTimeout`), and additionally reconnect when the connection is older
than four hours. -/
def checkConnection (cfg : WSConfig) (now : Nat) (s : State) : State :=
  if s.online = false then s
  else if s.ws ≠ some .OPEN then reconnect cfg s
  else
    let s1 := if s.lastPongTime ≠ 0 ∧ cfg.pongTimeout < now - s.lastPongTime
              then reconnect cfg s
              else s
    if 14400000 < now - s1.connectionStartTime then reconnect cfg s1 else s1

/-- `handleOnlineStatus()` (lines 104-113), fired when `navigator.onLine`
changes to `b`: reconnect on coming online, clean up and notify status
`false` on going offline. -/
def handleOnlineStatus (cfg : WSConfig) (b : Bool) (s : State) : State :=
  if b then reconnect cfg { s with online := b }
  else { cleanupConnection { s with online := b } with
           statuses := s.statuses ++ [false] }

/-- `isConnected()` (lines 431-433). -/
def isConnected (s : State) : Bool :=
  if s.ws = some .OPEN then s.isAuthenticated else false

/-- One occurrence on the event loop.  Socket callbacks carry the
`Date.now()` value at which they run; `connectEvt` and
`reconnectFireEvt` carry the token the credential provider returns at
that moment; `openEvt` carries the fuel given to the queue-drain
loop. -/
inductive Event where
  | connectEvt : Option Nat → Nat → Event
  | openEvt : Nat → Nat → Event
  | messageEvt : MsgType → Nat → Event
  | closeEvt : Nat → Event
  | errorEvt : Event
  | sendEvt : MsgType → Event
  | disconnectEvt : Event
  | onlineEvt : Bool → Event
  | visibilityEvt : Bool → Nat → Event
  | reconnectFireEvt : Option Nat → Nat → Event
  | keepaliveTickEvt : Nat → Event
  | checkTickEvt : Nat → Event
  | cleanupEvt : Event
deriving DecidableEq, Repr

/-- The event interpreter.  `reconnectFireEvt` is the reconnect-timer
callback (lines 230-233): increment the attempt counter, then
`connect()`.  `keepaliveTickEvt` is the keepalive-interval callback
(lines 137-142); `checkTickEvt` the connection-check interval;
`visibilityEvt true` runs the immediate health check of
`handleVisibilityChange` (hidden only re-paces the keepalive timer,
which this model does not observe); `cleanupEvt` is `cleanup()`
(lines 435-444). -/
def step (cfg : WSConfig) (e : Event) (s : State) : State :=
  match e with
  | .connectEvt token now => connect token now s
  | .openEvt now fuel => onopenEvt now fuel s
  | .messageEvt m now => onmessageEvt m now s
  | .closeEvt code => oncloseEvt cfg code s
  | .errorEvt => onerrorEvt s
  | .sendEvt m => send m s
  | .disconnectEvt => disconnectOp s
  | .onlineEvt b => handleOnlineStatus cfg b s
  | .visibilityEvt visible now => if visible then checkConnection cfg now s else s
  | .reconnectFireEvt token now =>
    if s.reconnectTimeoutSet then
      connect token now
        { s with reconnectAttempts := s.reconnectAttempts + 1,
                 reconnectTimeoutSet := false, reconnectDelaySet := none }
    else s
  | .keepaliveTickEvt now =>
    if s.keepaliveSet then
      (if s.ws = some .OPEN then { send .ping s with lastPingTime := now } else s)
    else s
  | .checkTickEvt now => if s.checkIntervalSet then checkConnection cfg now s else s
  | .cleanupEvt => cleanupConnection { s with shouldReconnect := false }

/-- Run a list of events in order. -/
def run (cfg : WSConfig) (s : State) : List Event → State
  | [] => s
  | e :: es => run cfg (step cfg e s) es

/-- Reachability from the freshly constructed service. -/
def Reachable (cfg : WSConfig) (s : State) : Prop :=
  ∃ es : List Event, s = run cfg initState es

/-- A frame is a domain frame (none of the protocol-reserved types). -/
def isDomain : MsgType → Bool
  | .domain _ => true
  | _ => false

/-- The event delivers an `authentication_successful` frame. -/
def isAuthSuccessEvt : Event → Bool
  | .messageEvt .authentication_successful _ => true
  | _ => false

/-- The event is an external call of `connect()`. -/
def isExternalConnect : Event → Bool
  | .connectEvt _ _ => true
  | _ => false

/-- Structural invariant of reachable states: while the socket is OPEN
the attempt counter plus the pending reconnect timer cannot exceed one
(the counter is zeroed in `onopen` and at most one pending timer can
still fire while the socket stays open, since arming a timer goes
through `cleanupConnection`); and a live socket implies the network is
online (all socket-creating paths are guarded by `navigator.onLine` and
going offline destroys the socket). -/
def Inv (s : State) : Prop :=
  (s.ws = some .OPEN →
    s.reconnectAttempts + (if s.reconnectTimeoutSet then 1 else 0) ≤ 1)
  ∧ (s.ws ≠ none → s.online = true)

end WebSocketService

namespace WebSocketService

/-! ### Helper lemmas: unfolding equations and which fields each
operation can touch -/

theorem drainLoop_succ_nil (n : Nat) (s : State) (hq : s.messageQueue = []) :
    drainLoop (n + 1) s = s := by
  simp only [drainLoop, hq]

theorem drainLoop_succ_cons (n : Nat) (s : State) (m : MsgType)
    (rest : List MsgType) (hq : s.messageQueue = m :: rest) :
    drainLoop (n + 1) s = drainLoop n (send m { s with messageQueue := rest }) := by
  simp only [drainLoop, hq]

theorem send_shape (m : MsgType) (s : State) :
    ∃ q t, send m s = { s with messageQueue := q, sent := t } := by
  unfold send
  split_ifs <;> exact ⟨_, _, rfl⟩

theorem drainLoop_shape (fuel : Nat) : ∀ s : State,
    ∃ q t, drainLoop fuel s = { s with messageQueue := q, sent := t } := by
  induction fuel with
  | zero => exact fun s => ⟨s.messageQueue, s.sent, rfl⟩
  | succ n ih =>
    intro s
    cases hq : s.messageQueue with
    | nil => exact ⟨s.messageQueue, s.sent, by rw [drainLoop_succ_nil n s hq]⟩
    | cons m rest =>
      obtain ⟨q0, t0, h0⟩ := send_shape m { s with messageQueue := rest }
      obtain ⟨q1, t1, h1⟩ := ih (send m { s with messageQueue := rest })
      refine ⟨q1, t1, ?_⟩
      rw [drainLoop_succ_cons n s m rest hq, h1, h0]

theorem startKeepalive_shape (now : Nat) (s : State) :
    ∃ q t, startKeepalive now s =
      { s with messageQueue := q, sent := t, lastPingTime := now,
               keepaliveSet := true, checkIntervalSet := true } := by
  obtain ⟨q0, t0, h0⟩ := send_shape .ping { s with keepaliveSet := false }
  refine ⟨q0, t0, ?_⟩
  unfold startKeepalive
  rw [h0]

theorem onopenEvt_shape (now fuel : Nat) (s : State) (hws : s.ws = some .CONNECTING) :
    ∃ q t, onopenEvt now fuel s =
      { s with ws := some .OPEN, isConnecting := false, reconnectAttempts := 0,
               lastPingTime := now, lastPongTime := now,
               statuses := s.statuses ++ [true],
               messageQueue := q, sent := t,
               keepaliveSet := true, checkIntervalSet := true } := by
  obtain ⟨q0, t0, h0⟩ := send_shape .authenticate
    { s with ws := some .OPEN, isConnecting := false, reconnectAttempts := 0,
             lastPingTime := now, lastPongTime := now,
             statuses := s.statuses ++ [true] }
  obtain ⟨q1, t1, h1⟩ := drainLoop_shape fuel (send .authenticate
    { s with ws := some .OPEN, isConnecting := false, reconnectAttempts := 0,
             lastPingTime := now, lastPongTime := now,
             statuses := s.statuses ++ [true] })
  obtain ⟨q2, t2, h2⟩ := startKeepalive_shape now (drainLoop fuel (send .authenticate
    { s with ws := some .OPEN, isConnecting := false, reconnectAttempts := 0,
             lastPingTime := now, lastPongTime := now,
             statuses := s.statuses ++ [true] }))
  refine ⟨q2, t2, ?_⟩
  unfold onopenEvt
  rw [if_pos hws, h2, h1, h0]

end WebSocketService

namespace WebSocketService

theorem send_isAuthenticated (m : MsgType) (s : State) :
    (send m s).isAuthenticated = s.isAuthenticated := by
  unfold send
  split_ifs <;> rfl

theorem connect_isAuthenticated (token : Option Nat) (now : Nat) (s : State) :
    (connect token now s).isAuthenticated = s.isAuthenticated := by
  unfold connect
  split_ifs <;> cases token <;> rfl

theorem reconnect_auth_false (cfg : WSConfig) (s : State)
    (h : s.isAuthenticated = false) : (reconnect cfg s).isAuthenticated = false := by
  unfold reconnect
  split_ifs <;> simp [cleanupConnection, h]

theorem checkConnection_auth_false (cfg : WSConfig) (now : Nat) (s : State)
    (h : s.isAuthenticated = false) :
    (checkConnection cfg now s).isAuthenticated = false := by
  simp only [checkConnection]
  split_ifs <;>
    first
      | exact h
      | exact reconnect_auth_false _ _ h
      | exact reconnect_auth_false _ _ (reconnect_auth_false _ _ h)

theorem onopenEvt_isAuthenticated (now fuel : Nat) (s : State) :
    (onopenEvt now fuel s).isAuthenticated = s.isAuthenticated := by
  by_cases hws : s.ws = some .CONNECTING
  · obtain ⟨q, t, hs⟩ := onopenEvt_shape now fuel s hws
    rw [hs]
  · unfold onopenEvt
    rw [if_neg hws]

theorem isConnected_of_auth_false (s : State) (h : s.isAuthenticated = false) :
    isConnected s = false := by
  unfold isConnected
  split_ifs <;> simp [h]

theorem step_auth_false (cfg : WSConfig) (e : Event) (s : State)
    (he : isAuthSuccessEvt e = false) (h : s.isAuthenticated = false) :
    (step cfg e s).isAuthenticated = false := by
  cases e with
  | connectEvt token now =>
    show (connect token now s).isAuthenticated = false
    rw [connect_isAuthenticated]
    exact h
  | openEvt now fuel =>
    show (onopenEvt now fuel s).isAuthenticated = false
    rw [onopenEvt_isAuthenticated]
    exact h
  | messageEvt m now =>
    show (onmessageEvt m now s).isAuthenticated = false
    unfold onmessageEvt
    split_ifs with hws
    · cases m with
      | authentication_successful => simp [isAuthSuccessEvt] at he
      | authentication_failed => simp [disconnectOp, cleanupConnection]
      | ping =>
        unfold handlePing
        split_ifs
        · rw [send_isAuthenticated]; exact h
      | pong => simpa [handlePong] using h
      | authenticate => simpa using h
      | domain tag => simpa using h
    · exact h
  | closeEvt code =>
    show (oncloseEvt cfg code s).isAuthenticated = false
    unfold oncloseEvt
    split_ifs
    · simpa using h
    · exact reconnect_auth_false _ _ (by simpa using h)
    · exact h
  | errorEvt =>
    show (onerrorEvt s).isAuthenticated = false
    unfold onerrorEvt
    split_ifs
    · simpa using h
    · exact h
  | sendEvt m =>
    show (send m s).isAuthenticated = false
    rw [send_isAuthenticated]
    exact h
  | disconnectEvt =>
    show (disconnectOp s).isAuthenticated = false
    simp [disconnectOp, cleanupConnection]
  | onlineEvt b =>
    show (handleOnlineStatus cfg b s).isAuthenticated = false
    unfold handleOnlineStatus
    split_ifs
    · exact reconnect_auth_false _ _ h
    · simp [cleanupConnection]
  | visibilityEvt v now =>
    cases v with
    | true => exact checkConnection_auth_false _ _ _ h
    | false => exact h
  | reconnectFireEvt token now =>
    simp only [step]
    split_ifs
    · rw [connect_isAuthenticated]
      exact h
    · exact h
  | keepaliveTickEvt now =>
    simp only [step]
    split_ifs
    · show (send .ping s).isAuthenticated = false
      rw [send_isAuthenticated]; exact h
    · exact h
    · exact h
  | checkTickEvt now =>
    simp only [step]
    split_ifs
    · exact checkConnection_auth_false _ _ _ h
    · exact h
  | cleanupEvt =>
    show (cleanupConnection { s with shouldReconnect := false }).isAuthenticated = false
    simp [cleanupConnection]

theorem run_auth_false (cfg : WSConfig) (es : List Event) : ∀ s : State,
    (∀ e ∈ es, isAuthSuccessEvt e = false) → s.isAuthenticated = false →
    (run cfg s es).isAuthenticated = false := by
  induction es with
  | nil => exact fun s _ h => h
  | cons e es ih =>
    intro s hes h
    exact ih (step cfg e s)
      (fun x hx => hes x (List.mem_cons_of_mem e hx))
      (step_auth_false cfg e s (hes e (List.mem_cons_self e es)) h)

end WebSocketService

namespace WebSocketService

/-! ### Helper lemmas for the terminal (attempts exhausted) regime -/

theorem reconnect_idle (cfg : WSConfig) (s : State)
    (h1 : cfg.reconnectAttempts ≤ s.reconnectAttempts) (h2 : s.ws = none)
    (h3 : s.reconnectTimeoutSet = false) :
    cfg.reconnectAttempts ≤ (reconnect cfg s).reconnectAttempts ∧
    (reconnect cfg s).ws = none ∧ (reconnect cfg s).reconnectTimeoutSet = false := by
  unfold reconnect
  split_ifs with ho hlt
  · exact ⟨h1, h2, h3⟩
  · omega
  · exact ⟨h1, rfl, rfl⟩

theorem checkConnection_idle (cfg : WSConfig) (now : Nat) (s : State)
    (h1 : cfg.reconnectAttempts ≤ s.reconnectAttempts) (h2 : s.ws = none)
    (h3 : s.reconnectTimeoutSet = false) :
    cfg.reconnectAttempts ≤ (checkConnection cfg now s).reconnectAttempts ∧
    (checkConnection cfg now s).ws = none ∧
    (checkConnection cfg now s).reconnectTimeoutSet = false := by
  unfold checkConnection
  split_ifs <;>
    first
      | exact ⟨h1, h2, h3⟩
      | exact reconnect_idle cfg s h1 h2 h3
      | simp_all

theorem step_idle_at_max (cfg : WSConfig) (e : Event) (s : State)
    (he : isExternalConnect e = false)
    (h1 : cfg.reconnectAttempts ≤ s.reconnectAttempts)
    (h2 : s.ws = none) (h3 : s.reconnectTimeoutSet = false) :
    cfg.reconnectAttempts ≤ (step cfg e s).reconnectAttempts ∧
    (step cfg e s).ws = none ∧ (step cfg e s).reconnectTimeoutSet = false := by
  cases e with
  | connectEvt token now => simp [isExternalConnect] at he
  | openEvt now fuel =>
    simp only [step]
    unfold onopenEvt
    rw [if_neg (by simp [h2])]
    exact ⟨h1, h2, h3⟩
  | messageEvt m now =>
    simp only [step]
    unfold onmessageEvt
    rw [if_neg (by simp [h2])]
    exact ⟨h1, h2, h3⟩
  | closeEvt code =>
    simp only [step]
    unfold oncloseEvt
    rw [if_neg (by simp [h2])]
    exact ⟨h1, h2, h3⟩
  | errorEvt =>
    simp only [step]
    unfold onerrorEvt
    rw [if_neg (by simp [h2])]
    exact ⟨h1, h2, h3⟩
  | sendEvt m =>
    obtain ⟨q, t, hs⟩ := send_shape m s
    simp only [step]
    rw [hs]
    exact ⟨h1, h2, h3⟩
  | disconnectEvt => exact ⟨h1, rfl, rfl⟩
  | onlineEvt b =>
    simp only [step]
    unfold handleOnlineStatus
    split_ifs
    · exact reconnect_idle cfg _ h1 h2 h3
    · exact ⟨h1, rfl, rfl⟩
  | visibilityEvt v now =>
    simp only [step]
    split_ifs
    · exact checkConnection_idle cfg now s h1 h2 h3
    · exact ⟨h1, h2, h3⟩
  | reconnectFireEvt token now =>
    simp only [step]
    rw [if_neg (by simp [h3])]
    exact ⟨h1, h2, h3⟩
  | keepaliveTickEvt now =>
    simp only [step]
    split_ifs <;> first | exact ⟨h1, h2, h3⟩ | simp_all
  | checkTickEvt now =>
    simp only [step]
    split_ifs
    · exact checkConnection_idle cfg now s h1 h2 h3
    · exact ⟨h1, h2, h3⟩
  | cleanupEvt => exact ⟨h1, rfl, rfl⟩

theorem run_idle_at_max (cfg : WSConfig) (es : List Event) : ∀ s : State,
    (∀ e ∈ es, isExternalConnect e = false) →
    cfg.reconnectAttempts ≤ s.reconnectAttempts →
    s.ws = none → s.reconnectTimeoutSet = false →
    cfg.reconnectAttempts ≤ (run cfg s es).reconnectAttempts ∧
    (run cfg s es).ws = none ∧ (run cfg s es).reconnectTimeoutSet = false := by
  induction es with
  | nil => exact fun s _ h1 h2 h3 => ⟨h1, h2, h3⟩
  | cons e es ih =>
    intro s hes h1 h2 h3
    obtain ⟨g1, g2, g3⟩ :=
      step_idle_at_max cfg e s (hes e (List.mem_cons_self e es)) h1 h2 h3
    exact ih (step cfg e s) (fun x hx => hes x (List.mem_cons_of_mem e hx)) g1 g2 g3

end WebSocketService

namespace WebSocketService

/-! ### The reachable-state invariant `Inv` -/

theorem inv_of_ws_none (s : State) (h : s.ws = none) : Inv s := by
  constructor
  · intro hx
    rw [h] at hx
    cases hx
  · intro hx
    exact (hx h).elim

theorem reconnect_inv (cfg : WSConfig) (s : State) (hInv : Inv s) :
    Inv (reconnect cfg s) := by
  unfold reconnect
  split_ifs
  · exact hInv
  · exact inv_of_ws_none _ rfl
  · exact inv_of_ws_none _ rfl

theorem connect_inv (token : Option Nat) (now : Nat) (s : State) (hInv : Inv s) :
    Inv (connect token now s) := by
  unfold connect
  split_ifs with hc hw ho
  · exact hInv
  · exact hInv
  · exact hInv
  · cases token with
    | none => exact hInv
    | some tok =>
      show Inv { s with isConnecting := true, ws := some .CONNECTING,
                        connectionStartTime := now }
      constructor
      · intro hx
        simp at hx
      · intro _
        show s.online = true
        cases hb : s.online with
        | false => exact absurd hb ho
        | true => rfl

theorem checkConnection_inv (cfg : WSConfig) (now : Nat) (s : State) (hInv : Inv s) :
    Inv (checkConnection cfg now s) := by
  simp only [checkConnection]
  split_ifs <;>
    first
      | exact hInv
      | exact reconnect_inv _ _ hInv
      | exact reconnect_inv _ _ (reconnect_inv _ _ hInv)

theorem inv_step (cfg : WSConfig) (e : Event) (s : State) (hInv : Inv s) :
    Inv (step cfg e s) := by
  cases e with
  | connectEvt token now => exact connect_inv token now s hInv
  | openEvt now fuel =>
    by_cases hws : s.ws = some .CONNECTING
    · obtain ⟨q, t, hs⟩ := onopenEvt_shape now fuel s hws
      show Inv (onopenEvt now fuel s)
      rw [hs]
      constructor
      · intro _
        show 0 + (if s.reconnectTimeoutSet then 1 else 0) ≤ 1
        split_ifs <;> omega
      · intro _
        exact hInv.2 (by rw [hws]; simp)
    · show Inv (onopenEvt now fuel s)
      unfold onopenEvt
      rw [if_neg hws]
      exact hInv
  | messageEvt m now =>
    show Inv (onmessageEvt m now s)
    unfold onmessageEvt
    split_ifs with hws
    · cases m with
      | authentication_successful => exact hInv
      | authentication_failed => exact inv_of_ws_none _ rfl
      | ping =>
        unfold handlePing
        split_ifs
        obtain ⟨q, t, hs⟩ := send_shape .pong s
        rw [hs]
        exact hInv
      | pong => exact hInv
      | authenticate => exact hInv
      | domain tag => exact hInv
    · exact hInv
  | closeEvt code =>
    show Inv (oncloseEvt cfg code s)
    unfold oncloseEvt
    split_ifs with hg hc
    · constructor
      · intro hx
        simp at hx
      · intro _
        exact hInv.2 (by rcases hg with h | h <;> simp [h])
    · apply reconnect_inv
      constructor
      · intro hx
        simp at hx
      · intro _
        exact hInv.2 (by rcases hg with h | h <;> simp [h])
    · exact hInv
  | errorEvt =>
    show Inv (onerrorEvt s)
    unfold onerrorEvt
    split_ifs with hg
    · exact ⟨fun hx => hInv.1 hx, fun hx => hInv.2 hx⟩
    · exact hInv
  | sendEvt m =>
    obtain ⟨q, t, hs⟩ := send_shape m s
    show Inv (send m s)
    rw [hs]
    exact hInv
  | disconnectEvt => exact inv_of_ws_none _ rfl
  | onlineEvt b =>
    show Inv (handleOnlineStatus cfg b s)
    unfold handleOnlineStatus
    split_ifs with hb
    · exact reconnect_inv _ _ ⟨fun hx => hInv.1 hx, fun _ => hb⟩
    · exact inv_of_ws_none _ rfl
  | visibilityEvt v now =>
    simp only [step]
    split_ifs
    · exact checkConnection_inv cfg now s hInv
    · exact hInv
  | reconnectFireEvt token now =>
    simp only [step]
    split_ifs with ht
    · apply connect_inv
      constructor
      · intro hx
        have h1 := hInv.1 hx
        rw [if_pos ht] at h1
        show s.reconnectAttempts + 1 + (if false = true then 1 else 0) ≤ 1
        simp only [if_neg (by decide : ¬ false = true)]
        omega
      · intro hx
        exact hInv.2 hx
    · exact hInv
  | keepaliveTickEvt now =>
    simp only [step]
    split_ifs
    · obtain ⟨q, t, hs⟩ := send_shape .ping s
      rw [hs]
      exact hInv
    · exact hInv
    · exact hInv
  | checkTickEvt now =>
    simp only [step]
    split_ifs
    · exact checkConnection_inv cfg now s hInv
    · exact hInv
  | cleanupEvt => exact inv_of_ws_none _ rfl

theorem inv_run (cfg : WSConfig) (es : List Event) : ∀ s : State,
    Inv s → Inv (run cfg s es) := by
  induction es with
  | nil => exact fun s h => h
  | cons e es ih => exact fun s h => ih (step cfg e s) (inv_step cfg e s h)

theorem inv_reachable (cfg : WSConfig) (s : State) (h : Reachable cfg s) : Inv s := by
  obtain ⟨es, rfl⟩ := h
  exact inv_run cfg es initState (inv_of_ws_none _ rfl)

end WebSocketService

namespace WebSocketService

/-! ### The onopen queue-drain loop under an unauthenticated channel -/

theorem drainLoop_unauth_domain (fuel : Nat) : ∀ s : State,
    s.isAuthenticated = false →
    (∀ m ∈ s.messageQueue, isDomain m = true) →
    ∃ q : List MsgType,
      drainLoop fuel s = { s with messageQueue := q } ∧
      q.length = s.messageQueue.length ∧
      (∀ m ∈ q, isDomain m = true) := by
  induction fuel with
  | zero => exact fun s _ hdom => ⟨s.messageQueue, rfl, rfl, hdom⟩
  | succ n ih =>
    intro s hauth hdom
    cases hq : s.messageQueue with
    | nil =>
      refine ⟨[], ?_, rfl, by simp⟩
      rw [drainLoop_succ_nil n s hq, ← hq]
    | cons m rest =>
      have hm : isDomain m = true := hdom m (by rw [hq]; exact List.mem_cons_self m rest)
      have hrest : ∀ x ∈ rest, isDomain x = true :=
        fun x hx => hdom x (by rw [hq]; exact List.mem_cons_of_mem m hx)
      have hm1 : m ≠ .authenticate := by cases m <;> simp [isDomain] at hm ⊢
      have hm2 : m ≠ .ping := by cases m <;> simp [isDomain] at hm ⊢
      have hsend : send m { s with messageQueue := rest } =
          { s with messageQueue := rest ++ [m] } := by
        unfold send
        rw [if_pos ⟨hauth, hm1, hm2⟩]
      have hside : ∀ x ∈ rest ++ [m], isDomain x = true := by
        intro x hx
        rcases List.mem_append.mp hx with h | h
        · exact hrest x h
        · rw [List.mem_singleton.mp h]
          exact hm
      obtain ⟨q, hq1, hq2, hq3⟩ := ih { s with messageQueue := rest ++ [m] } hauth hside
      refine ⟨q, ?_, ?_, hq3⟩
      · rw [drainLoop_succ_cons n s m rest hq, hsend]
        exact hq1
      · rw [hq2]
        simp [hq]

theorem startKeepalive_open (now : Nat) (s : State) (hws : s.ws = some .OPEN) :
    startKeepalive now s =
      { s with sent := s.sent ++ [.ping], lastPingTime := now,
               keepaliveSet := true, checkIntervalSet := true } := by
  unfold startKeepalive send
  rw [if_neg (by simp), if_pos hws]

theorem reconnect_reconnectAttempts (cfg : WSConfig) (s : State) :
    (reconnect cfg s).reconnectAttempts = s.reconnectAttempts := by
  unfold reconnect
  split_ifs <;> rfl

end WebSocketService

namespace WebSocketService

/-! ### Claim theorems -/

/-- C4 (code bug witness): in the reachable run `connect` → `onopen` →
`authentication_successful` → close event with the normal-closure code
1000, the `onclose` handler returns before any cleanup, so
`isAuthenticated` remains `true` while the socket is CLOSED — the
claimed invariant "authenticated implies the transport is open" is
violated by the code.  (The sibling hook implementation resets the flag
unconditionally in its `onclose`, showing the slip.) -/
theorem C4_auth_flag_survives_normal_close :
    (run DEFAULT_CONFIG initState
      [.connectEvt (some 1) 0, .openEvt 1 0,
       .messageEvt .authentication_successful 2, .closeEvt 1000]).isAuthenticated
      = true ∧
    (run DEFAULT_CONFIG initState
      [.connectEvt (some 1) 0, .openEvt 1 0,
       .messageEvt .authentication_successful 2, .closeEvt 1000]).ws
      = some .CLOSED := by
  decide

/-- C5: for an attempt counter below the configured maximum, `reconnect`
arms its timer with delay `min (base × 2 ^ attempts) 30000`; the delay
function is monotone in the attempt counter and never exceeds the
30-second ceiling. -/
theorem C5_backoff_delay (cfg : WSConfig) (s : State) (a b : Nat)
    (honline : s.online = true)
    (hlt : s.reconnectAttempts < cfg.reconnectAttempts) :
    (reconnect cfg s).reconnectDelaySet
      = some (min (cfg.reconnectBaseDelay * 2 ^ s.reconnectAttempts) 30000) ∧
    (a ≤ b → reconnectDelay cfg a ≤ reconnectDelay cfg b) ∧
    reconnectDelay cfg a ≤ 30000 := by
  refine ⟨?_, ?_, ?_⟩
  · unfold reconnect
    rw [if_neg (by simp [honline]), if_pos hlt]
    rfl
  · intro hab
    unfold reconnectDelay
    exact min_le_min
      (Nat.mul_le_mul_left _ (Nat.pow_le_pow_right (by norm_num) hab)) le_rfl
  · exact min_le_right _ _

/-- C5 witness: the backoff facts evaluated at the default configuration
in the initial state, and at attempt counters 2 and 3. -/
theorem C5_backoff_delay_witness :
    (reconnect DEFAULT_CONFIG initState).reconnectDelaySet = some 1000 ∧
    reconnectDelay DEFAULT_CONFIG 2 ≤ reconnectDelay DEFAULT_CONFIG 3 ∧
    reconnectDelay DEFAULT_CONFIG 2 ≤ 30000 := by
  obtain ⟨h1, h2, h3⟩ := C5_backoff_delay DEFAULT_CONFIG initState 2 3 rfl (by decide)
  exact ⟨h1.trans (by decide), h2 (by decide), h3⟩

/-- C6 counterexample: after two failed attempts the counter is 2, and
the open event alone — with no `authentication_successful` received —
resets it to 0, refuting "reset to zero only when a connection reaches
the fully authenticated state". -/
theorem C6_counterexample_open_resets_counter :
    (run DEFAULT_CONFIG initState
      [.connectEvt (some 1) 0, .closeEvt 1006, .reconnectFireEvt (some 1) 100,
       .closeEvt 1006, .reconnectFireEvt (some 1) 200]).reconnectAttempts = 2 ∧
    (run DEFAULT_CONFIG initState
      [.connectEvt (some 1) 0, .closeEvt 1006, .reconnectFireEvt (some 1) 100,
       .closeEvt 1006, .reconnectFireEvt (some 1) 200,
       .openEvt 300 0]).reconnectAttempts = 0 ∧
    (run DEFAULT_CONFIG initState
      [.connectEvt (some 1) 0, .closeEvt 1006, .reconnectFireEvt (some 1) 100,
       .closeEvt 1006, .reconnectFireEvt (some 1) 200,
       .openEvt 300 0]).isAuthenticated = false := by
  decide

/-- C6 (amended): the attempt counter survives `connect()` calls and
close events, and is reset to zero by the `onopen` handler — that is,
as soon as the transport opens, before authentication completes. -/
theorem C6_counter_reset_at_open (cfg : WSConfig) (s : State)
    (token : Option Nat) (now fuel code : Nat) :
    (connect token now s).reconnectAttempts = s.reconnectAttempts ∧
    s.reconnectAttempts ≤ (oncloseEvt cfg code s).reconnectAttempts ∧
    (s.ws = some .CONNECTING → (onopenEvt now fuel s).reconnectAttempts = 0) := by
  refine ⟨?_, ?_, ?_⟩
  · unfold connect
    split_ifs <;> cases token <;> rfl
  · unfold oncloseEvt
    split_ifs
    · exact le_rfl
    · rw [reconnect_reconnectAttempts]
    · exact le_rfl
  · intro hws
    obtain ⟨q, t, hs⟩ := onopenEvt_shape now fuel s hws
    rw [hs]

/-- C6 witness: the amended claim applied at a concrete CONNECTING
state. -/
theorem C6_counter_reset_at_open_witness :
    (onopenEvt 0 0 { initState with ws := some .CONNECTING }).reconnectAttempts = 0 :=
  (C6_counter_reset_at_open DEFAULT_CONFIG { initState with ws := some .CONNECTING }
    (some 1) 0 0 1000).2.2 rfl

/-- C8 counterexample: `connect()` with an absent token leaves the
service exactly in its initial state — no socket and no retry as the
claim says, but also an empty error trace: the setup failure is NOT
surfaced to registered error handlers, refuting that part of the
claim. -/
theorem C8_counterexample_no_error_surfaced :
    (run DEFAULT_CONFIG initState [.connectEvt none 5]).ws = none ∧
    (run DEFAULT_CONFIG initState [.connectEvt none 5]).reconnectTimeoutSet = false ∧
    (run DEFAULT_CONFIG initState [.connectEvt none 5]).errors = [] := by
  decide

/-- C8 (amended): when the credential provider returns no token,
`connect()` opens no socket, schedules no retry, and reports nothing to
the registered error handlers (the failure is only logged). -/
theorem C8_no_token_fails_silently (s : State) (now : Nat) :
    (connect none now s).ws = s.ws ∧
    (connect none now s).reconnectTimeoutSet = s.reconnectTimeoutSet ∧
    (connect none now s).errors = s.errors := by
  unfold connect
  split_ifs <;> exact ⟨rfl, rfl, rfl⟩

/-- C9: while the transport is not open, `send` silently drops a `ping`
(state unchanged: neither written nor queued) and appends every other
message — `authenticate` included — to the outbound queue. -/
theorem C9_send_not_open (s : State) (m : MsgType) (hws : s.ws ≠ some .OPEN) :
    send .ping s = s ∧
    (m ≠ .ping → send m s = { s with messageQueue := s.messageQueue ++ [m] }) := by
  constructor
  · unfold send
    rw [if_neg (by simp), if_neg hws, if_neg (by simp)]
  · intro hm
    unfold send
    by_cases h1 : s.isAuthenticated = false ∧ m ≠ .authenticate ∧ m ≠ .ping
    · rw [if_pos h1]
    · rw [if_neg h1, if_neg hws, if_pos hm]

/-- C9 witness: on the initial (closed) state a `ping` is dropped and an
`authenticate` message is queued. -/
theorem C9_send_not_open_witness :
    send .ping initState = initState ∧
    send .authenticate initState
      = { initState with messageQueue := initState.messageQueue ++ [.authenticate] } := by
  obtain ⟨h1, h2⟩ := C9_send_not_open initState .authenticate (by decide)
  exact ⟨h1, h2 (by decide)⟩

/-- C10 counterexample: socket open, not yet authenticated, server sends
`ping`: the reply `pong` is pushed onto the outbound queue by the
unauthenticated gate in `send` instead of being written to the transport, so no
pong reaches the wire — refuting "replies with a pong frame even before
authentication completes".  (The ping is still not forwarded to message
handlers.) -/
theorem C10_counterexample_pong_queued_before_auth :
    (run DEFAULT_CONFIG initState
      [.connectEvt (some 1) 0, .openEvt 1 0, .messageEvt .ping 2]).sent
      = [.authenticate, .ping] ∧
    (run DEFAULT_CONFIG initState
      [.connectEvt (some 1) 0, .openEvt 1 0, .messageEvt .ping 2]).messageQueue
      = [.pong] ∧
    (run DEFAULT_CONFIG initState
      [.connectEvt (some 1) 0, .openEvt 1 0, .messageEvt .ping 2]).dispatched
      = [] := by
  decide

/-- C10 (amended): a server `ping` received while the socket is open is
answered with a `pong` written to the transport only when the channel
is already authenticated; before authentication the `pong` is enqueued
on the outbound queue instead.  In both cases nothing is dispatched to
message handlers (the state changes only as shown). -/
theorem C10_ping_reply (s : State) (now : Nat) (hws : s.ws = some .OPEN) :
    (s.isAuthenticated = true →
      onmessageEvt .ping now s = { s with sent := s.sent ++ [.pong] }) ∧
    (s.isAuthenticated = false →
      onmessageEvt .ping now s = { s with messageQueue := s.messageQueue ++ [.pong] }) := by
  constructor
  · intro hauth
    unfold onmessageEvt
    rw [if_pos hws]
    show handlePing s = _
    unfold handlePing
    rw [if_pos hws]
    unfold send
    rw [if_neg (by simp [hauth]), if_pos hws]
  · intro hauth
    unfold onmessageEvt
    rw [if_pos hws]
    show handlePing s = _
    unfold handlePing
    rw [if_pos hws]
    unfold send
    rw [if_pos ⟨hauth, by decide, by decide⟩]

/-- C10 witness: the unauthenticated half of the amended claim at a
concrete open state. -/
theorem C10_ping_reply_witness :
    onmessageEvt .ping 0 { initState with ws := some .OPEN }
      = { initState with ws := some .OPEN, messageQueue := [MsgType.pong] } :=
  (C10_ping_reply { initState with ws := some .OPEN } 0 rfl).2 rfl

end WebSocketService

namespace WebSocketService

/-- C1 (code bug): with unauthenticated domain messages queued when the
socket opens, the `onopen` handler writes only the `authenticate` frame
and its initial keepalive `ping` to the transport — the queue-drain
`while` loop re-enqueues every message it dequeues (because `send`
pushes unauthenticated non-privileged messages back onto the queue), so
for EVERY fuel bound the queue length is unchanged: the source loop
never terminates and never flushes.  Moreover the
`authentication_successful` handler writes nothing and leaves the queue
untouched, so no queued message is delivered after the
authentication-success event either, contradicting the claimed
flush-on-authentication behaviour. -/
theorem C1_open_drain_never_flushes (s s2 : State) (now now2 fuel : Nat)
    (hws : s.ws = some .CONNECTING)
    (hauth : s.isAuthenticated = false)
    (hdom : ∀ m ∈ s.messageQueue, isDomain m = true) :
    (onopenEvt now fuel s).sent = s.sent ++ [.authenticate, .ping] ∧
    (onopenEvt now fuel s).messageQueue.length = s.messageQueue.length ∧
    (onmessageEvt .authentication_successful now2 s2).sent = s2.sent ∧
    (onmessageEvt .authentication_successful now2 s2).messageQueue
      = s2.messageQueue := by
  have h0 : onopenEvt now fuel s = startKeepalive now (drainLoop fuel (send .authenticate
      { s with ws := some .OPEN, isConnecting := false, reconnectAttempts := 0,
               lastPingTime := now, lastPongTime := now,
               statuses := s.statuses ++ [true] })) := by
    unfold onopenEvt
    rw [if_pos hws]
  have hA : send .authenticate
      { s with ws := some .OPEN, isConnecting := false, reconnectAttempts := 0,
               lastPingTime := now, lastPongTime := now,
               statuses := s.statuses ++ [true] } =
      { s with ws := some .OPEN, isConnecting := false, reconnectAttempts := 0,
               lastPingTime := now, lastPongTime := now,
               statuses := s.statuses ++ [true],
               sent := s.sent ++ [.authenticate] } := by
    unfold send
    rw [if_neg (by simp), if_pos rfl]
  obtain ⟨q, hq1, hq2, _⟩ := drainLoop_unauth_domain fuel
      { s with ws := some .OPEN, isConnecting := false, reconnectAttempts := 0,
               lastPingTime := now, lastPongTime := now,
               statuses := s.statuses ++ [true],
               sent := s.sent ++ [.authenticate] } hauth hdom
  refine ⟨?_, ?_, ?_, ?_⟩
  · rw [h0, hA, hq1, startKeepalive_open now _ rfl]
    simp
  · rw [h0, hA, hq1, startKeepalive_open now _ rfl]
    simpa using hq2
  · unfold onmessageEvt
    split_ifs <;> rfl
  · unfold onmessageEvt
    split_ifs <;> rfl

/-- C1 witness: a `mark_read`-style domain message queued by `send`
before the socket opens stays queued (and unsent) through the open
event, for the concrete fuel bound 7 and through the
`authentication_successful` handler. -/
theorem C1_open_drain_never_flushes_witness :
    (onopenEvt 1 7 (run DEFAULT_CONFIG initState
        [.sendEvt (.domain 7), .connectEvt (some 1) 0])).sent
      = (run DEFAULT_CONFIG initState
          [.sendEvt (.domain 7), .connectEvt (some 1) 0]).sent
        ++ [.authenticate, .ping] ∧
    (onopenEvt 1 7 (run DEFAULT_CONFIG initState
        [.sendEvt (.domain 7), .connectEvt (some 1) 0])).messageQueue.length
      = (run DEFAULT_CONFIG initState
          [.sendEvt (.domain 7), .connectEvt (some 1) 0]).messageQueue.length ∧
    (onmessageEvt .authentication_successful 2 initState).sent = initState.sent ∧
    (onmessageEvt .authentication_successful 2 initState).messageQueue
      = initState.messageQueue :=
  C1_open_drain_never_flushes
    (run DEFAULT_CONFIG initState [.sendEvt (.domain 7), .connectEvt (some 1) 0])
    initState 1 2 7 (by decide) (by decide) (by decide)

/-- C2 counterexample: after the attempt counter reaches the maximum of
5 the terminal error is reported, and the next network-online event
runs `reconnect()` again, which re-reports the SAME terminal error: the
error trace holds two `maxReconnect` entries, refuting "reported
exactly once". -/
theorem C2_counterexample_terminal_error_twice :
    (run DEFAULT_CONFIG initState
      [.connectEvt (some 1) 0, .closeEvt 1006,
       .reconnectFireEvt (some 1) 100, .closeEvt 1006,
       .reconnectFireEvt (some 1) 200, .closeEvt 1006,
       .reconnectFireEvt (some 1) 300, .closeEvt 1006,
       .reconnectFireEvt (some 1) 400, .closeEvt 1006,
       .reconnectFireEvt (some 1) 500, .closeEvt 1006,
       .onlineEvt true]).errors = [.maxReconnect, .maxReconnect] := by
  decide

/-- C2 (amended): once the attempt counter has reached the configured
maximum with the socket torn down and no reconnect timer pending, no
sequence of events that does not include an external `connect()` call
ever creates a socket or arms the reconnect timer again (the terminal
error, however, is re-reported on every later reconnect trigger rather
than exactly once). -/
theorem C2_no_attempt_after_max (cfg : WSConfig) (s : State) (es : List Event)
    (h1 : cfg.reconnectAttempts ≤ s.reconnectAttempts)
    (h2 : s.ws = none) (h3 : s.reconnectTimeoutSet = false)
    (hes : ∀ e ∈ es, isExternalConnect e = false) :
    (run cfg s es).ws = none ∧ (run cfg s es).reconnectTimeoutSet = false := by
  obtain ⟨g1, g2, g3⟩ := run_idle_at_max cfg es s hes h1 h2 h3
  exact ⟨g2, g3⟩

/-- C2 witness: from the concrete terminal state (counter exhausted), an
online event followed by a visibility-driven health check still leaves
no socket and no pending reconnect timer. -/
theorem C2_no_attempt_after_max_witness :
    (run DEFAULT_CONFIG (run DEFAULT_CONFIG initState
      [.connectEvt (some 1) 0, .closeEvt 1006,
       .reconnectFireEvt (some 1) 100, .closeEvt 1006,
       .reconnectFireEvt (some 1) 200, .closeEvt 1006,
       .reconnectFireEvt (some 1) 300, .closeEvt 1006,
       .reconnectFireEvt (some 1) 400, .closeEvt 1006,
       .reconnectFireEvt (some 1) 500, .closeEvt 1006])
      [.onlineEvt true, .visibilityEvt true 900]).ws = none ∧
    (run DEFAULT_CONFIG (run DEFAULT_CONFIG initState
      [.connectEvt (some 1) 0, .closeEvt 1006,
       .reconnectFireEvt (some 1) 100, .closeEvt 1006,
       .reconnectFireEvt (some 1) 200, .closeEvt 1006,
       .reconnectFireEvt (some 1) 300, .closeEvt 1006,
       .reconnectFireEvt (some 1) 400, .closeEvt 1006,
       .reconnectFireEvt (some 1) 500, .closeEvt 1006])
      [.onlineEvt true, .visibilityEvt true 900]).reconnectTimeoutSet = false :=
  C2_no_attempt_after_max DEFAULT_CONFIG
    (run DEFAULT_CONFIG initState
      [.connectEvt (some 1) 0, .closeEvt 1006,
       .reconnectFireEvt (some 1) 100, .closeEvt 1006,
       .reconnectFireEvt (some 1) 200, .closeEvt 1006,
       .reconnectFireEvt (some 1) 300, .closeEvt 1006,
       .reconnectFireEvt (some 1) 400, .closeEvt 1006,
       .reconnectFireEvt (some 1) 500, .closeEvt 1006])
    [.onlineEvt true, .visibilityEvt true 900]
    (by decide) (by decide) (by decide) (by decide)

/-- C3 counterexample: on a fresh channel whose socket opens and which
never receives `authentication_successful`, a domain frame from the
server IS dispatched to the registered message handlers, refuting "no
domain frame is dispatched". -/
theorem C3_counterexample_domain_dispatched_unauth :
    (run DEFAULT_CONFIG initState
      [.connectEvt (some 1) 0, .openEvt 1 0, .messageEvt (.domain 42) 2]).dispatched
      = [.domain 42] ∧
    (run DEFAULT_CONFIG initState
      [.connectEvt (some 1) 0, .openEvt 1 0,
       .messageEvt (.domain 42) 2]).isAuthenticated = false := by
  decide

/-- C3 (amended): in every run from a fresh channel in which no
`authentication_successful` frame is ever received, `isConnected()`
returns false throughout; domain frames received while the socket is
open are nevertheless dispatched to registered message handlers. -/
theorem C3_unauthenticated_never_connected (es : List Event)
    (hes : ∀ e ∈ es, isAuthSuccessEvt e = false) :
    isConnected (run DEFAULT_CONFIG initState es) = false ∧
    (run DEFAULT_CONFIG initState
      [.connectEvt (some 1) 0, .openEvt 1 0, .messageEvt (.domain 7) 2]).dispatched
      = [.domain 7] := by
  constructor
  · exact isConnected_of_auth_false _ (run_auth_false DEFAULT_CONFIG es initState hes rfl)
  · decide

/-- C3 witness: the amended claim at the concrete open-but-unanswered
run. -/
theorem C3_unauthenticated_never_connected_witness :
    isConnected (run DEFAULT_CONFIG initState
      [.connectEvt (some 1) 0, .openEvt 1 0, .messageEvt (.domain 7) 2]) = false ∧
    (run DEFAULT_CONFIG initState
      [.connectEvt (some 1) 0, .openEvt 1 0, .messageEvt (.domain 7) 2]).dispatched
      = [.domain 7] :=
  C3_unauthenticated_never_connected
    [.connectEvt (some 1) 0, .openEvt 1 0, .messageEvt (.domain 7) 2] (by decide)

/-- C7: in any reachable state of the default-configured service whose
socket is OPEN, if the health check runs at a time when the last pong
is stale (a pong had been recorded, and more than `pongTimeout` has
elapsed since), then `checkConnection` closes and discards the
transport and arms the reconnect timer — even though the socket still
reported itself OPEN. -/
theorem C7_stale_pong_closes_and_schedules (s : State) (now : Nat)
    (hreach : Reachable DEFAULT_CONFIG s)
    (hopen : s.ws = some .OPEN)
    (hpong : s.lastPongTime ≠ 0)
    (hstale : DEFAULT_CONFIG.pongTimeout < now - s.lastPongTime) :
    (checkConnection DEFAULT_CONFIG now s).ws = none ∧
    (checkConnection DEFAULT_CONFIG now s).reconnectTimeoutSet = true := by
  have hInv := inv_reachable DEFAULT_CONFIG s hreach
  have honline : s.online = true := hInv.2 (by rw [hopen]; simp)
  have hlt : s.reconnectAttempts < DEFAULT_CONFIG.reconnectAttempts := by
    have h1 := hInv.1 hopen
    show s.reconnectAttempts < 5
    split_ifs at h1 <;> omega
  have hR : reconnect DEFAULT_CONFIG s =
      { cleanupConnection s with
          reconnectTimeoutSet := true,
          reconnectDelaySet :=
            some (reconnectDelay DEFAULT_CONFIG s.reconnectAttempts) } := by
    unfold reconnect
    rw [if_neg (by simp [honline]), if_pos hlt]
  have hR2 : reconnect DEFAULT_CONFIG
      ({ cleanupConnection s with
          reconnectTimeoutSet := true,
          reconnectDelaySet :=
            some (reconnectDelay DEFAULT_CONFIG s.reconnectAttempts) } : State) =
      { cleanupConnection s with
          reconnectTimeoutSet := true,
          reconnectDelaySet :=
            some (reconnectDelay DEFAULT_CONFIG s.reconnectAttempts) } := by
    unfold reconnect
    rw [if_neg (by simp [cleanupConnection, honline]),
        if_pos (by simpa [cleanupConnection] using hlt)]
    rfl
  simp only [checkConnection]
  rw [if_neg (by simp [honline]), if_neg (by simp [hopen])]
  rw [if_pos (show s.lastPongTime ≠ 0 ∧
        DEFAULT_CONFIG.pongTimeout < now - s.lastPongTime from ⟨hpong, hstale⟩)]
  rw [hR, hR2]
  split_ifs <;> exact ⟨rfl, rfl⟩

/-- C7 witness: a concrete reachable open state checked 46 seconds after
its last pong (timeout 45s): the socket is discarded and the reconnect
timer armed. -/
theorem C7_stale_pong_closes_and_schedules_witness :
    (checkConnection DEFAULT_CONFIG 46000 (run DEFAULT_CONFIG initState
      [.connectEvt (some 1) 0, .openEvt 5 0])).ws = none ∧
    (checkConnection DEFAULT_CONFIG 46000 (run DEFAULT_CONFIG initState
      [.connectEvt (some 1) 0, .openEvt 5 0])).reconnectTimeoutSet = true :=
  C7_stale_pong_closes_and_schedules
    (run DEFAULT_CONFIG initState [.connectEvt (some 1) 0, .openEvt 5 0]) 46000
    ⟨[.connectEvt (some 1) 0, .openEvt 5 0], rfl⟩ (by decide) (by decide) (by decide)

end WebSocketService

namespace WebSocketService

/-- C8 witness: the amended claim evaluated at the initial state. -/
theorem C8_no_token_fails_silently_witness :
    (connect none 5 initState).ws = initState.ws ∧
    (connect none 5 initState).reconnectTimeoutSet = initState.reconnectTimeoutSet ∧
    (connect none 5 initState).errors = initState.errors :=
  C8_no_token_fails_silently initState 5

end WebSocketService
